import Mathlib

/-!
Verification development for the HLSpresso transcoding orchestrator.

This file gives a shallow embedding, in Lean 4, of the parts of the code
base that the specification's testable properties talk about:

* the bitrate-ladder generator (`pkg/hls/auto_resolutions.go`),
* the progress reporter (`pkg/progress/progress.go`, rich variant with
  throttling, capping and channel close on `Complete`),
* the structured error taxonomy (`pkg/errors`),
* the downloader (`pkg/downloader/downloader.go`),
* the orchestrator's local-input validation and the per-tier resolution
  validation of `createHLSStreams` (`pkg/transcoder`).

Modelling conventions:

* Go `int`/`int64` are modelled as `ℤ` (no overflow is reachable at the
  magnitudes involved: dimensions, percentages, byte counts).
* Go `float64` arithmetic in the ladder generator is modelled by exact
  rational arithmetic.  The generator only ever forms `round(x*100)/100`
  of a ratio of dimensions and then `round(size * thatValue)`, so the
  rounded percentage is carried as an integer (`aspectPercent`) and
  `math.Round` becomes an exact integer rounding (`mathRound`).  On all
  inputs appearing in this file the double-precision value is far from
  any half-integer tie, so the rational model agrees with `float64`
  (this is confirmed against the expected ladders hard-coded in the
  repository's own `auto_resolutions_test.go`).
* `math.Round` rounds half away from zero, which for nonnegative
  arguments is `floor(x + 1/2)`; `mathRound a b` computes that value for
  the exact rational `a / b`.
* Effectful operations (file system, HTTP, subprocess) take an explicit
  environment record describing the outcome of each external call, and
  return both their result and observable side effects (events emitted,
  whether an HTTP request was issued, the destination file's state,
  whether the encoder subprocess was invoked).
* Wall-clock timestamps (`time.Now`) are threaded as an explicit `now`
  parameter where the code's behaviour depends on time (throttling) and
  omitted from the error record, whose timestamp field no claim touches.
-/

namespace HLSpresso

/-! ## Rounding (model of Go `math.Round` on exact rationals) -/

/-- Floor of `(a + b/2) / b` over naturals; `Nat` division is floor
division, so for `b > 0` this is `round(a/b)` with halves rounded up.
Yields `0` when `b = 0` (such a division is never reached from inputs
the claims quantify over). -/
def roundHalfUpN (a b : ℕ) : ℕ := (2 * a + b) / (2 * b)

/-- Model of Go `math.Round (a / b)` for integers `a`, `b` with `b > 0`:
nearest integer, halves away from zero. -/
def mathRound (a b : ℤ) : ℤ :=
  if 0 ≤ a then (roundHalfUpN a.toNat b.toNat : ℤ)
  else -(roundHalfUpN (-a).toNat b.toNat : ℤ)

/-! ## `pkg/hls`: quality tiers and the automatic ladder generator -/

/-- One value of the `DefaultBitrates` map in `auto_resolutions.go`. -/
structure BitrateSpec where
  Video : String
  MaxRate : String
  BufSize : String
  Audio : String
deriving Repr, DecidableEq

/-- `hls.VideoResolution` (one quality tier of a ladder). -/
structure VideoResolution where
  Width : Int
  Height : Int
  VideoBitrate : String
  MaxRate : String
  BufSize : String
  AudioBitrate : String
deriving Repr, DecidableEq

/-- The `DefaultBitrates` map of `auto_resolutions.go`, as a function.
A Go map read returns the zero value for a missing key, hence the final
all-empty default. -/
def DefaultBitrates (name : String) : BitrateSpec :=
  if name = "2160p" then ⟨"15000k", "16050k", "22500k", "192k"⟩
  else if name = "1440p" then ⟨"9000k", "9630k", "13500k", "192k"⟩
  else if name = "1080p" then ⟨"5000k", "5350k", "7500k", "192k"⟩
  else if name = "720p" then ⟨"2800k", "2996k", "4200k", "128k"⟩
  else if name = "480p" then ⟨"1400k", "1498k", "2100k", "96k"⟩
  else if name = "360p" then ⟨"800k", "856k", "1200k", "64k"⟩
  else if name = "240p" then ⟨"400k", "428k", "600k", "48k"⟩
  else ⟨"", "", "", ""⟩

/-- The `standardResolutions` slice of `GenerateAutoResolutions`:
`(name, size, minDim)` triples, largest first. -/
def standardResolutions : List (String × Int × Int) :=
  [("1080p", 1080, 1080), ("720p", 720, 720), ("480p", 480, 480),
   ("360p", 360, 360), ("240p", 240, 240)]

/-- The `switch` on `originalMax` in `GenerateAutoResolutions` choosing
the quality name for the source tier (descending `>=` thresholds with a
`240p` default). -/
def originalQualityName (originalMax : Int) : String :=
  if originalMax ≥ 2160 then "2160p"
  else if originalMax ≥ 1440 then "1440p"
  else if originalMax ≥ 1080 then "1080p"
  else if originalMax ≥ 720 then "720p"
  else if originalMax ≥ 480 then "480p"
  else if originalMax ≥ 360 then "360p"
  else "240p"

/-- The aspect-ratio computation of `GenerateAutoResolutions`, carried as
an integer percentage: the code computes
`aspectRatio = math.Round((small/large)*100)/100`; `aspectPercent` is the
integer `math.Round((small/large)*100)`, so `aspectRatio = aspectPercent/100`
exactly. -/
def aspectPercent (originalWidth originalHeight : ℤ) : ℤ :=
  if originalHeight > originalWidth then mathRound (100 * originalWidth) originalHeight
  else mathRound (100 * originalHeight) originalWidth

/-- The body of the `standardResolutions` loop of
`GenerateAutoResolutions` (after the `res.size >= originalMax` skip):
derive the complementary dimension from the aspect percentage
(`math.Round(primary * aspectRatio)` = `mathRound (primary*arP) 100`),
bump it to at least `minDim/3`, force both dimensions even by
subtracting `x % 2`, and drop tiers below the `160×90` floor. -/
def deriveTier (isVertical : Bool) (arP : ℤ) (name : String) (primary minDim : ℤ) :
    Option VideoResolution :=
  let derived0 := mathRound (primary * arP) 100
  let derived := if derived0 < minDim / 3 then minDim / 3 else derived0
  let w0 := if isVertical then derived else primary
  let h0 := if isVertical then primary else derived
  let w := w0 - w0 % 2
  let h := h0 - h0 % 2
  if w < 160 ∨ h < 90 then none
  else
    let bi := DefaultBitrates name
    some ⟨w, h, bi.Video, bi.MaxRate, bi.BufSize, bi.Audio⟩

/-- `hls.GenerateAutoResolutions` (`auto_resolutions.go`): the source
resolution first, with the preset chosen by `originalQualityName` of the
larger dimension, followed by every standard tier strictly smaller than
the source's larger dimension that survives `deriveTier`. -/
def GenerateAutoResolutions (originalWidth originalHeight : Int) : List VideoResolution :=
  let isVertical := originalHeight > originalWidth
  let arP := aspectPercent originalWidth originalHeight
  let originalMax := max originalWidth originalHeight
  let b := DefaultBitrates (originalQualityName originalMax)
  let first : VideoResolution :=
    ⟨originalWidth, originalHeight, b.Video, b.MaxRate, b.BufSize, b.Audio⟩
  first :: standardResolutions.filterMap fun res =>
    if res.2.1 ≥ originalMax then none
    else deriveTier isVertical arP res.1 res.2.1 res.2.2

/-- The named tiers and their thresholds, largest first, as listed by the
specification for the ladder generator's source classification. -/
def namedTierThresholds : List (String × ℤ) :=
  [("2160p", 2160), ("1440p", 1440), ("1080p", 1080), ("720p", 720),
   ("480p", 480), ("360p", 360), ("240p", 240)]

/-- Spec-side selector, written from the claim's words (for comparison
with the code's `originalQualityName`): the tier named by the largest
threshold that is at most `m`, or `none` when no threshold qualifies. -/
def specLargestThresholdAtMost (m : ℤ) : Option String :=
  ((namedTierThresholds.filter fun p => decide (p.2 ≤ m)).head?).map Prod.fst

/-! ## `pkg/errors`: the structured error taxonomy -/

namespace Errors

def NetworkError : String := "network_error"
def DiskSpaceError : String := "disk_space_error"
def FileNotFoundError : String := "file_not_found_error"
def InvalidFileFormatError : String := "invalid_file_format_error"
def PermissionError : String := "permission_error"
def MemoryError : String := "memory_error"
def CodecNotFoundError : String := "codec_not_found_error"
def InvalidOutputPathError : String := "invalid_output_path_error"
def UnsupportedResolutionError : String := "unsupported_resolution_error"
def DownloadError : String := "download_error"
def TranscodingError : String := "transcoding_error"
def HLSError : String := "hls_error"
def ValidationError : String := "validation_error"
def SystemError : String := "system_error"

def ErrNetworkConnectionFailed : ℤ := 1000
def ErrNetworkTimeout : ℤ := 1001
def ErrNetworkDNSFailure : ℤ := 1002
def ErrNetworkServerUnavailable : ℤ := 1003
def ErrDiskSpaceInsufficient : ℤ := 1100
def ErrDiskQuotaExceeded : ℤ := 1101
def ErrDiskWriteFailed : ℤ := 1102
def ErrFileNotFound : ℤ := 1200
def ErrFileNotAccessible : ℤ := 1201
def ErrDirectoryNotFound : ℤ := 1202
def ErrInvalidFileFormat : ℤ := 1300
def ErrUnsupportedFileFormat : ℤ := 1301
def ErrCorruptedFile : ℤ := 1302
def ErrPermissionDenied : ℤ := 1400
def ErrReadPermissionDenied : ℤ := 1401
def ErrWritePermissionDenied : ℤ := 1402
def ErrOutOfMemory : ℤ := 1500
def ErrMemoryAllocationFailed : ℤ := 1501
def ErrCodecNotFound : ℤ := 1600
def ErrCodecNotSupported : ℤ := 1601
def ErrMissingDependency : ℤ := 1602
def ErrInvalidOutputPath : ℤ := 1700
def ErrOutputPathNotAccessible : ℤ := 1701
def ErrOutputDirectoryCreationFailed : ℤ := 1702
def ErrUnsupportedResolution : ℤ := 1800
def ErrInvalidResolution : ℤ := 1801
def ErrResolutionTooHigh : ℤ := 1802
def ErrResolutionTooLow : ℤ := 1803

/-- `errors.GetErrorMessage` over the `ErrorMessages` map
(`error_messages.go`), with the unknown-code default. -/
def GetErrorMessage (code : ℤ) : String :=
  if code = ErrNetworkConnectionFailed then "Erro de rede ao tentar acessar o arquivo. Verifique sua conexão e tente novamente."
  else if code = ErrNetworkTimeout then "Tempo limite de rede excedido. Verifique sua conexão e tente novamente."
  else if code = ErrNetworkDNSFailure then "Falha na resolução DNS. Verifique o endereço do servidor e tente novamente."
  else if code = ErrNetworkServerUnavailable then "Servidor indisponível. Tente novamente mais tarde."
  else if code = ErrDiskSpaceInsufficient then "Espaço insuficiente no disco para processar o arquivo. Libere espaço e tente novamente."
  else if code = ErrDiskQuotaExceeded then "Cota de disco excedida. Libere espaço ou ajuste sua cota."
  else if code = ErrDiskWriteFailed then "Falha ao escrever no disco. Verifique as permissões e o espaço disponível."
  else if code = ErrFileNotFound then "Arquivo não encontrado. Verifique o caminho e se o arquivo está acessível."
  else if code = ErrFileNotAccessible then "Arquivo inacessível. Verifique as permissões e se o arquivo existe."
  else if code = ErrDirectoryNotFound then "Diretório não encontrado. Verifique o caminho e se o diretório existe."
  else if code = ErrInvalidFileFormat then "Formato de arquivo inválido. Somente MP4, MOV, AVI, MKV, WEBM são suportados."
  else if code = ErrUnsupportedFileFormat then "Formato de arquivo não suportado. Utilize um dos formatos compatíveis."
  else if code = ErrCorruptedFile then "O arquivo parece estar corrompido. Verifique a integridade do arquivo."
  else if code = ErrPermissionDenied then "Permissão negada. Verifique as permissões de leitura/gravação no arquivo ou diretório."
  else if code = ErrReadPermissionDenied then "Permissão de leitura negada. Verifique as permissões do arquivo."
  else if code = ErrWritePermissionDenied then "Permissão de escrita negada. Verifique as permissões do diretório de destino."
  else if code = ErrOutOfMemory then "Memória insuficiente para processar o arquivo. Tente reduzir a resolução ou o tamanho do arquivo."
  else if code = ErrMemoryAllocationFailed then "Falha na alocação de memória. Tente fechar outros aplicativos ou processos."
  else if code = ErrCodecNotFound then "Codec necessário não encontrado. Certifique-se de que o codec necessário está instalado."
  else if code = ErrCodecNotSupported then "Codec não suportado nesta plataforma."
  else if code = ErrMissingDependency then "Dependência necessária não encontrada. Verifique a instalação do FFmpeg."
  else if code = ErrInvalidOutputPath then "Caminho de saída inválido ou inacessível. Verifique as permissões e tente novamente."
  else if code = ErrOutputPathNotAccessible then "Caminho de saída inacessível. Verifique as permissões e se o diretório existe."
  else if code = ErrOutputDirectoryCreationFailed then "Falha ao criar diretório de saída. Verifique as permissões."
  else if code = ErrUnsupportedResolution then "Resolução de vídeo não suportada. Tente uma resolução compatível."
  else if code = ErrInvalidResolution then "Resolução de vídeo inválida. Use uma resolução válida."
  else if code = ErrResolutionTooHigh then "Resolução de vídeo muito alta. Use uma resolução menor."
  else if code = ErrResolutionTooLow then "Resolução de vídeo muito baixa. Use uma resolução maior."
  else "Erro desconhecido."

end Errors

/-- `errors.StructuredError` (`error.go`).  The Go struct also carries an
RFC3339 wall-clock timestamp, which no claim about this code observes
and which is therefore not modelled. `Type` is a Lean keyword, so the
field is spelled `errType`. -/
structure StructuredError where
  errType : String
  Message : String
  Details : String
  Code : ℤ
deriving Repr, DecidableEq

/-- `errors.New`. -/
def Errors.New (errorType message details : String) (code : ℤ) : StructuredError :=
  ⟨errorType, message, details, code⟩

/-- `errors.Wrap`: the underlying Go error is modelled by the text of its
`Error()` rendering (`none` for a nil error, giving empty `Details`). -/
def Errors.Wrap (err : Option String) (errorType message : String) (code : ℤ) : StructuredError :=
  ⟨errorType, message, err.getD "", code⟩

/-! ## `pkg/progress`: the default progress reporter

Embedding of the `DefaultReporter` variant with throttling, capping,
zero-total guard, progress file and channel close on `Complete` (the
`Update`/`Complete` bodies cited by the claims).  The console progress
bar is modelled by the single bit the control flow reads: whether the
bar exists (`Bar != nil`, here `barActive`).  Emission on the buffered
updates channel is modelled by the `Option ProgressEvent` each operation
returns (`some e` exactly when the code reaches the channel send in
`sendUpdateInternal`); `closed` records that `close(updatesCh)` ran.
The percentage, a `float64` in Go, is modelled as an exact rational. -/

/-- `progress.ProgressEvent` (timestamp as abstract integer time). -/
structure ProgressEvent where
  Status : String
  Percentage : ℚ
  Step : String
  Stage : String
  Timestamp : ℤ
deriving Repr, DecidableEq

/-- `progress.DefaultReporter` state. -/
structure DefaultReporter where
  Total : ℤ
  Current : ℤ
  barActive : Bool
  lastUpdate : ℤ
  throttle : ℤ
  Event : ProgressEvent
  closed : Bool
deriving Repr, DecidableEq

/-- `progress.NewReporter` (with a `WithThrottle` option value). -/
def NewReporter (throttle : ℤ) (now : ℤ) : DefaultReporter :=
  ⟨0, 0, false, now, throttle, ⟨"initialized", 0, "", "", now⟩, false⟩

/-- `sendUpdateInternal(force)`: skip when not forced and inside the
throttle window, otherwise stamp `lastUpdate` and emit the current
event. -/
def DefaultReporter.sendUpdateInternal (r : DefaultReporter) (force : Bool) (now : ℤ) :
    DefaultReporter × Option ProgressEvent :=
  if force = false ∧ now - r.lastUpdate < r.throttle then (r, none)
  else ({ r with lastUpdate := now }, some r.Event)

/-- `DefaultReporter.Start`. -/
def DefaultReporter.Start (r : DefaultReporter) (total : ℤ) (now : ℤ) :
    DefaultReporter × Option ProgressEvent :=
  let r1 := { r with
    Total := total, Current := 0, barActive := true,
    Event := { r.Event with Status := "started", Percentage := 0, Timestamp := now } }
  r1.sendUpdateInternal true now

/-- `DefaultReporter.Update`: no-op when not started; caps `current` at
`Total` (no lower bound); percentage is `current/Total*100` guarded by
`Total > 0`; status becomes `processing`; emission is throttled. -/
def DefaultReporter.Update (r : DefaultReporter) (current : ℤ) (step stage : String) (now : ℤ) :
    DefaultReporter × Option ProgressEvent :=
  if r.barActive = false then (r, none)
  else
    let c := if current > r.Total then r.Total else current
    let percentage : ℚ := if r.Total > 0 then (c : ℚ) / (r.Total : ℚ) * 100 else 0
    let r1 := { r with
      Current := c,
      Event := ⟨"processing", percentage, step, stage, now⟩ }
    r1.sendUpdateInternal false now

/-- `DefaultReporter.Increment` reuses `Update` at `Current + 1`. -/
def DefaultReporter.Increment (r : DefaultReporter) (step stage : String) (now : ℤ) :
    DefaultReporter × Option ProgressEvent :=
  r.Update (r.Current + 1) step stage now

/-- `DefaultReporter.Complete`: no-op when not started (or already
completed); otherwise sets `Current := Total`, percentage 100, status
`completed`, emits bypassing the throttle (`force = true`), drops the
bar and closes the updates channel. -/
def DefaultReporter.Complete (r : DefaultReporter) (now : ℤ) :
    DefaultReporter × Option ProgressEvent :=
  if r.barActive = false then (r, none)
  else
    let r1 := { r with
      Current := r.Total,
      Event := { r.Event with Percentage := 100, Status := "completed", Timestamp := now } }
    let p := r1.sendUpdateInternal true now
    ({ p.1 with barActive := false, closed := true }, p.2)

/-! ## `pkg/downloader`: the file downloader

`Downloader.Download` is embedded as a function of the options plus an
environment record carrying the outcome of every external call it makes,
in the order the code makes them.  The result records the value
returned, whether an HTTP request was issued (`client.Do` reached),
whether `os.Create` on the destination was reached, and the resulting
state of the destination file. -/

/-- `downloader.Options` (the fields `Download` branches on; `Timeout`
configures the HTTP client and the progress reporter is side-band). -/
structure DownloaderOptions where
  URL : String
  OutputPath : String
  AllowOverride : Bool
deriving Repr, DecidableEq

/-- Decidable equality for `Except` (needed to state and decide concrete
facts about results). -/
def exceptDecEq {ε : Type u} {α : Type v} [DecidableEq ε] [DecidableEq α] :
    DecidableEq (Except ε α)
  | .error a, .error b =>
    if h : a = b then .isTrue (congrArg Except.error h)
    else .isFalse fun hc => h (Except.error.inj hc)
  | .error _, .ok _ => .isFalse fun hc => Except.noConfusion hc
  | .ok _, .error _ => .isFalse fun hc => Except.noConfusion hc
  | .ok a, .ok b =>
    if h : a = b then .isTrue (congrArg Except.ok h)
    else .isFalse fun hc => h (Except.ok.inj hc)

instance {ε : Type u} {α : Type v} [DecidableEq ε] [DecidableEq α] :
    DecidableEq (Except ε α) := exceptDecEq

/-- An HTTP response as `Download` observes it: `resp.StatusCode`,
`resp.Status` (the status line text, e.g. `"404 Not Found"`), body. -/
structure HttpResponse where
  StatusCode : ℤ
  Status : String
  Body : String
deriving Repr, DecidableEq

/-- Outcomes of the external calls `Download` makes, in program order.
`none` / `Except.ok` means the call succeeded; `some txt` / `.error txt`
carries the Go error's `Error()` text.  `copied` is the prefix of the
body that `io.Copy` had written when it failed. -/
structure DownloadEnv where
  mkdirError : Option String
  destExists : Bool
  newRequestError : Option String
  doResult : Except String HttpResponse
  createError : Option String
  copyError : Option String
  copied : String
deriving Repr, DecidableEq

/-- State of the destination file after `Download` returns. -/
inductive DestFileState where
  | unchanged
  | fullWrite (content : String)
  | truncatedWrite (content : String)
deriving Repr, DecidableEq

/-- Observable outcome of one `Download` call. -/
structure DownloadResult where
  result : Except StructuredError String
  httpRequested : Bool
  createAttempted : Bool
  dest : DestFileState
deriving Repr, DecidableEq

/-- `Downloader.Download` (`downloader.go`): create the output
directory, skip if the destination exists and overriding is off, build
the request, issue it, insist on status exactly `http.StatusOK`, create
the file, copy the body. -/
def Download (opts : DownloaderOptions) (env : DownloadEnv) : DownloadResult :=
  match env.mkdirError with
  | some e =>
    ⟨.error (Errors.Wrap (some e) Errors.SystemError "Failed to create output directory" 1),
     false, false, .unchanged⟩
  | none =>
  if env.destExists ∧ opts.AllowOverride = false then
    ⟨.ok opts.OutputPath, false, false, .unchanged⟩
  else
  match env.newRequestError with
  | some e =>
    ⟨.error (Errors.Wrap (some e) Errors.DownloadError "Failed to create HTTP request" 2),
     false, false, .unchanged⟩
  | none =>
  match env.doResult with
  | .error e =>
    ⟨.error (Errors.Wrap (some e) Errors.DownloadError "Failed to download file" 3),
     true, false, .unchanged⟩
  | .ok resp =>
  if resp.StatusCode ≠ 200 then
    ⟨.error (Errors.New Errors.DownloadError "HTTP request failed" ("Status: " ++ resp.Status) 4),
     true, false, .unchanged⟩
  else
  match env.createError with
  | some e =>
    ⟨.error (Errors.Wrap (some e) Errors.SystemError "Failed to create output file" 5),
     true, true, .unchanged⟩
  | none =>
  match env.copyError with
  | some e =>
    ⟨.error (Errors.Wrap (some e) Errors.DownloadError "Failed to write file" 6),
     true, true, .truncatedWrite env.copied⟩
  | none => ⟨.ok opts.OutputPath, true, true, .fullWrite resp.Body⟩

/-! ## `pkg/transcoder`: local-input validation and HLS dispatch -/

/-- Outcome of an `os.Open` / `os.Create` style call, as the code
branches on it: success, `os.IsPermission`, or another error (text). -/
inductive OpenResult where
  | success
  | permissionDenied (msg : String)
  | otherFailure (msg : String)
deriving Repr, DecidableEq

/-- What `os.Stat`/`os.Open` report about a local input path. -/
structure LocalInputInfo where
  statExists : Bool
  isDir : Bool
  openResult : OpenResult
  size : ℤ
deriving Repr, DecidableEq

/-- The `supportedFormats` set of `handleInput` (a Go map used as a set;
a missing key reads as `false`). -/
def supportedFormats : List String :=
  [".mp4", ".mov", ".avi", ".mkv", ".webm", ".flv", ".wmv", ".mpeg",
   ".mpg", ".m4v", ".3gp", ".ts", ".mts", ".m2ts"]

/-- Go `path/filepath.Ext`: the suffix beginning at the final dot in the
final slash-separated element of the path; empty when that element has
no dot. -/
def filepathExt (p : String) : String :=
  let lastElemRev := p.data.reverse.takeWhile fun c => c ≠ '/'
  if lastElemRev.contains '.' then
    ⟨'.' :: (lastElemRev.takeWhile fun c => c ≠ '.').reverse⟩
  else ""

/-- Go `strings.ToLower` (character-wise; ASCII suffices here). -/
def stringToLower (s : String) : String := ⟨s.data.map Char.toLower⟩

/-- The local (non-URL) branch of `Transcoder.handleInput`: existence,
directory, read-permission, non-empty and supported-extension checks, in
that order, each mapped to its taxonomy error. -/
def handleInputLocal (inputPath : String) (info : LocalInputInfo) :
    Except StructuredError String :=
  if info.statExists = false then
    .error (Errors.New Errors.FileNotFoundError
      (Errors.GetErrorMessage Errors.ErrFileNotFound) inputPath Errors.ErrFileNotFound)
  else if info.isDir then
    .error (Errors.New Errors.InvalidFileFormatError
      "O caminho fornecido é um diretório, não um arquivo" inputPath Errors.ErrInvalidFileFormat)
  else
  match info.openResult with
  | .permissionDenied _ =>
    .error (Errors.New Errors.PermissionError
      (Errors.GetErrorMessage Errors.ErrReadPermissionDenied) inputPath Errors.ErrReadPermissionDenied)
  | .otherFailure msg =>
    .error (Errors.Wrap (some msg) Errors.SystemError "Falha ao abrir o arquivo de entrada" 4)
  | .success =>
  if info.size = 0 then
    .error (Errors.New Errors.InvalidFileFormatError
      "O arquivo está vazio" inputPath Errors.ErrCorruptedFile)
  else
  let ext := stringToLower (filepathExt inputPath)
  if supportedFormats.contains ext = false then
    .error (Errors.New Errors.InvalidFileFormatError
      (Errors.GetErrorMessage Errors.ErrUnsupportedFileFormat)
      ("Extensão: " ++ ext) Errors.ErrUnsupportedFileFormat)
  else .ok inputPath

/-- Whether `pat` occurs as a contiguous sublist of the second list. -/
def listContainsSub (pat : List Char) : List Char → Bool
  | [] => pat.isEmpty
  | c :: t => pat.isPrefixOf (c :: t) || listContainsSub pat t

/-- Go `strings.Contains`. -/
def stringContains (s pat : String) : Bool := listContainsSub pat.data s.data

/-- One iteration of the resolution-validation loop in
`Transcoder.createHLSStreams`: non-positive, above the 8K ceiling, below
the `128×96` floor — checked in that order. -/
def validateResolution (r : VideoResolution) : Option StructuredError :=
  if r.Width ≤ 0 ∨ r.Height ≤ 0 then
    some (Errors.New Errors.UnsupportedResolutionError
      (Errors.GetErrorMessage Errors.ErrInvalidResolution)
      ("Resolução inválida: " ++ toString r.Width ++ "x" ++ toString r.Height)
      Errors.ErrInvalidResolution)
  else if r.Width > 7680 ∨ r.Height > 4320 then
    some (Errors.New Errors.UnsupportedResolutionError
      (Errors.GetErrorMessage Errors.ErrResolutionTooHigh)
      ("Resolução muito alta: " ++ toString r.Width ++ "x" ++ toString r.Height)
      Errors.ErrResolutionTooHigh)
  else if r.Width < 128 ∨ r.Height < 96 then
    some (Errors.New Errors.UnsupportedResolutionError
      (Errors.GetErrorMessage Errors.ErrResolutionTooLow)
      ("Resolução muito baixa: " ++ toString r.Width ++ "x" ++ toString r.Height)
      Errors.ErrResolutionTooLow)
  else none

/-- The resolution-validation loop: the first offending tier's error. -/
def validateResolutions : List VideoResolution → Option StructuredError
  | [] => none
  | r :: rest =>
    match validateResolution r with
    | some e => some e
    | none => validateResolutions rest

/-- Outcomes of the external calls `createHLSStreams` makes before and
after tier validation: `MkdirAll` on the output directory (`none` = ok;
otherwise whether `os.IsPermission`, plus the error text, plus the
`unix.Statfs` free-byte probe made inside that failure branch), the
write-permission test file, the `hlsGen.CreateHLS` encoder run, and the
final master-playlist existence check. -/
structure HLSRunEnv where
  mkdirFailure : Option (Bool × String × Option ℤ)
  writeTest : OpenResult
  encoderResult : Except String String
  masterExists : Bool
deriving Repr, DecidableEq

/-- `Transcoder.createHLSStreams` (`part_009`), returning its result
paired with whether the encoder (`hlsGen.CreateHLS`) was invoked. -/
def createHLSStreams (resolutions : List VideoResolution) (outputPath : String)
    (env : HLSRunEnv) : Except StructuredError String × Bool :=
  match env.mkdirFailure with
  | some (isPerm, msg, free) =>
    if isPerm then
      (.error (Errors.Wrap (some msg) Errors.PermissionError
        (Errors.GetErrorMessage Errors.ErrWritePermissionDenied) Errors.ErrWritePermissionDenied),
       false)
    else
      match free with
      | some f =>
        if f < 1024 * 1024 * 1024 then
          (.error (Errors.New Errors.DiskSpaceError
            (Errors.GetErrorMessage Errors.ErrDiskSpaceInsufficient)
            ("Espaço livre: " ++ toString f ++ " bytes") Errors.ErrDiskSpaceInsufficient),
           false)
        else
          (.error (Errors.Wrap (some msg) Errors.SystemError
            "Failed to create output directory" 15), false)
      | none =>
        (.error (Errors.Wrap (some msg) Errors.SystemError
          "Failed to create output directory" 15), false)
  | none =>
  match env.writeTest with
  | .permissionDenied _ =>
    (.error (Errors.New Errors.PermissionError
      (Errors.GetErrorMessage Errors.ErrWritePermissionDenied)
      outputPath Errors.ErrWritePermissionDenied), false)
  | .otherFailure msg =>
    (.error (Errors.Wrap (some msg) Errors.InvalidOutputPathError
      (Errors.GetErrorMessage Errors.ErrOutputPathNotAccessible)
      Errors.ErrOutputPathNotAccessible), false)
  | .success =>
  match validateResolutions resolutions with
  | some e => (.error e, false)
  | none =>
  match env.encoderResult with
  | .error msg =>
    (if stringContains msg "codec" || stringContains msg "encoder" then
      .error (Errors.Wrap (some msg) Errors.CodecNotFoundError
        (Errors.GetErrorMessage Errors.ErrCodecNotFound) Errors.ErrCodecNotFound)
    else if stringContains msg "memory" || stringContains msg "allocate" then
      .error (Errors.Wrap (some msg) Errors.MemoryError
        (Errors.GetErrorMessage Errors.ErrOutOfMemory) Errors.ErrOutOfMemory)
    else if stringContains msg "permission" then
      .error (Errors.Wrap (some msg) Errors.PermissionError
        (Errors.GetErrorMessage Errors.ErrWritePermissionDenied) Errors.ErrWritePermissionDenied)
    else if stringContains msg "no space" then
      .error (Errors.Wrap (some msg) Errors.DiskSpaceError
        (Errors.GetErrorMessage Errors.ErrDiskSpaceInsufficient) Errors.ErrDiskSpaceInsufficient)
    else
      .error (Errors.Wrap (some msg) Errors.HLSError "Failed to create HLS streams" 16), true)
  | .ok masterPath =>
    (if env.masterExists = false then
      .error (Errors.New Errors.HLSError "Master playlist não foi criado" outputPath 17)
    else .ok masterPath, true)

/-! ## Helper lemmas -/

theorem roundHalfUpN_le (a b n : ℕ) (hb : 0 < b) (h : a ≤ n * b) :
    roundHalfUpN a b ≤ n := by
  have h2 : 2 * a + b < (n + 1) * (2 * b) := by nlinarith
  have h3 := (Nat.div_lt_iff_lt_mul (by omega : 0 < 2 * b)).mpr h2
  unfold roundHalfUpN
  omega

theorem mathRound_le (a b n : ℤ) (ha : 0 ≤ a) (hb : 0 < b) (h : a ≤ n * b) :
    mathRound a b ≤ n := by
  have hn : 0 ≤ n := by nlinarith
  have hnat : a.toNat ≤ n.toNat * b.toNat := by
    have h1 : (a.toNat : ℤ) ≤ (n.toNat : ℤ) * (b.toNat : ℤ) := by
      rw [Int.toNat_of_nonneg ha, Int.toNat_of_nonneg hn, Int.toNat_of_nonneg hb.le]
      exact h
    exact_mod_cast h1
  have h4 := roundHalfUpN_le a.toNat b.toNat n.toNat (by omega) hnat
  unfold mathRound
  simp only [ha, if_pos]
  omega

theorem mathRound_nonneg (a b : ℤ) (ha : 0 ≤ a) : 0 ≤ mathRound a b := by
  unfold mathRound
  simp [ha]

/-- The rounded aspect percentage lies in `[0, 100]` for a positive
source: it rounds `small/large * 100` with `small ≤ large`. -/
theorem aspectPercent_bounds (w h : ℤ) (hw : 0 < w) (hh : 0 < h) :
    0 ≤ aspectPercent w h ∧ aspectPercent w h ≤ 100 := by
  unfold aspectPercent
  split
  · exact ⟨mathRound_nonneg _ _ (by positivity),
      mathRound_le _ _ _ (by positivity) hh (by nlinarith)⟩
  · next hle =>
    have hwh : h ≤ w := by omega
    exact ⟨mathRound_nonneg _ _ (by positivity),
      mathRound_le _ _ _ (by positivity) hw (by nlinarith)⟩

/-- Any tier `deriveTier` emits has both dimensions even and its larger
dimension bounded by the standard size it was derived for. -/
theorem deriveTier_bounds (iv : Bool) (arP : ℤ) (name : String) (primary minDim : ℤ)
    (r : VideoResolution) (h0 : 0 ≤ arP) (h1 : arP ≤ 100) (hp : 0 < primary)
    (hm : 0 ≤ minDim / 3) (hm2 : minDim / 3 ≤ primary)
    (hres : deriveTier iv arP name primary minDim = some r) :
    max r.Width r.Height ≤ primary ∧ Even r.Width ∧ Even r.Height := by
  have hub : mathRound (primary * arP) 100 ≤ primary :=
    mathRound_le _ _ _ (by positivity) (by norm_num) (by nlinarith)
  have hlb : 0 ≤ mathRound (primary * arP) 100 := mathRound_nonneg _ _ (by positivity)
  simp only [deriveTier] at hres
  by_cases hbump : mathRound (primary * arP) 100 < minDim / 3
  case pos =>
    rw [if_pos hbump] at hres
    cases iv with
    | false =>
      simp only [Bool.false_eq_true, if_false] at hres
      split at hres
      · exact Option.noConfusion hres
      · have hrw : r = ⟨primary - primary % 2, minDim / 3 - minDim / 3 % 2,
            (DefaultBitrates name).Video, (DefaultBitrates name).MaxRate,
            (DefaultBitrates name).BufSize, (DefaultBitrates name).Audio⟩ :=
          (Option.some.inj hres).symm
        subst hrw
        dsimp only
        refine ⟨by simp only [max_le_iff]; constructor <;> omega,
          by rw [Int.even_iff]; omega, by rw [Int.even_iff]; omega⟩
    | true =>
      simp only [if_true] at hres
      split at hres
      · exact Option.noConfusion hres
      · have hrw : r = ⟨minDim / 3 - minDim / 3 % 2, primary - primary % 2,
            (DefaultBitrates name).Video, (DefaultBitrates name).MaxRate,
            (DefaultBitrates name).BufSize, (DefaultBitrates name).Audio⟩ :=
          (Option.some.inj hres).symm
        subst hrw
        dsimp only
        refine ⟨by simp only [max_le_iff]; constructor <;> omega,
          by rw [Int.even_iff]; omega, by rw [Int.even_iff]; omega⟩
  case neg =>
    rw [if_neg hbump] at hres
    cases iv with
    | false =>
      simp only [Bool.false_eq_true, if_false] at hres
      split at hres
      · exact Option.noConfusion hres
      · have hrw : r = ⟨primary - primary % 2,
            mathRound (primary * arP) 100 - mathRound (primary * arP) 100 % 2,
            (DefaultBitrates name).Video, (DefaultBitrates name).MaxRate,
            (DefaultBitrates name).BufSize, (DefaultBitrates name).Audio⟩ :=
          (Option.some.inj hres).symm
        subst hrw
        dsimp only
        refine ⟨by simp only [max_le_iff]; constructor <;> omega,
          by rw [Int.even_iff]; omega, by rw [Int.even_iff]; omega⟩
    | true =>
      simp only [if_true] at hres
      split at hres
      · exact Option.noConfusion hres
      · have hrw : r = ⟨mathRound (primary * arP) 100 - mathRound (primary * arP) 100 % 2,
            primary - primary % 2,
            (DefaultBitrates name).Video, (DefaultBitrates name).MaxRate,
            (DefaultBitrates name).BufSize, (DefaultBitrates name).Audio⟩ :=
          (Option.some.inj hres).symm
        subst hrw
        dsimp only
        refine ⟨by simp only [max_le_iff]; constructor <;> omega,
          by rw [Int.even_iff]; omega, by rw [Int.even_iff]; omega⟩

/-- One loop iteration of `GenerateAutoResolutions` (skip guard plus
`deriveTier`): anything it emits respects the source bound and is even. -/
theorem genLoop_tier_bounds (w h : ℤ) (hw : 0 < w) (hh : 0 < h)
    (name : String) (primary minDim : ℤ) (r : VideoResolution)
    (hp : 0 < primary) (hm : 0 ≤ minDim / 3) (hm2 : minDim / 3 ≤ primary)
    (hfa : (if primary ≥ max w h then none
            else deriveTier (decide (h > w)) (aspectPercent w h) name primary minDim) = some r) :
    max r.Width r.Height ≤ max w h ∧ Even r.Width ∧ Even r.Height := by
  split at hfa
  · exact Option.noConfusion hfa
  · next hlt =>
    have harB := aspectPercent_bounds w h hw hh
    have hb := deriveTier_bounds _ _ _ _ _ r harB.1 harB.2 hp hm hm2 hfa
    exact ⟨le_trans hb.1 (by omega), hb.2⟩

/-- Every tier in the tail of an auto-generated ladder (the derived
tiers) is even in both dimensions and bounded by the source's larger
dimension. -/
theorem genTail_bounds (w h : ℤ) (hw : 0 < w) (hh : 0 < h) (r : VideoResolution)
    (hr : r ∈ (GenerateAutoResolutions w h).tail) :
    max r.Width r.Height ≤ max w h ∧ Even r.Width ∧ Even r.Height := by
  simp only [GenerateAutoResolutions, List.tail_cons] at hr
  obtain ⟨a, ha, hfa⟩ := List.mem_filterMap.mp hr
  simp only [standardResolutions, List.mem_cons, List.not_mem_nil, or_false] at ha
  rcases ha with rfl | rfl | rfl | rfl | rfl
  · exact genLoop_tier_bounds w h hw hh _ 1080 1080 r (by norm_num) (by decide) (by decide) hfa
  · exact genLoop_tier_bounds w h hw hh _ 720 720 r (by norm_num) (by decide) (by decide) hfa
  · exact genLoop_tier_bounds w h hw hh _ 480 480 r (by norm_num) (by decide) (by decide) hfa
  · exact genLoop_tier_bounds w h hw hh _ 360 360 r (by norm_num) (by decide) (by decide) hfa
  · exact genLoop_tier_bounds w h hw hh _ 240 240 r (by norm_num) (by decide) (by decide) hfa

/-! ## Claim C1 -/

/-- Claim C1 (amended): for every source with positive dimensions, no
tier's larger dimension exceeds the source's larger dimension, every
tier after the first has even width and height, and the first tier is
the source resolution emitted unchanged — hence the first tier's
dimensions are even only when the source's are (the original claim's
"every tier has even dimensions" fails for odd sources). -/
theorem autoLadder_no_upscale_and_even_derived_tiers (w h : ℤ) (hw : 0 < w) (hh : 0 < h) :
    (∀ r ∈ GenerateAutoResolutions w h, max r.Width r.Height ≤ max w h) ∧
    (∀ r ∈ (GenerateAutoResolutions w h).tail, Even r.Width ∧ Even r.Height) ∧
    (∃ r, (GenerateAutoResolutions w h).head? = some r ∧ r.Width = w ∧ r.Height = h) := by
  refine ⟨?_, ?_, ?_⟩
  · intro r hr
    rw [show GenerateAutoResolutions w h =
        (GenerateAutoResolutions w h).head?.toList ++ (GenerateAutoResolutions w h).tail from ?_] at hr
    · rcases List.mem_append.mp hr with hhd | htl
      · simp only [GenerateAutoResolutions, List.head?_cons, Option.toList_some,
          List.mem_singleton] at hhd
        subst hhd
        simp
      · exact (genTail_bounds w h hw hh r htl).1
    · simp only [GenerateAutoResolutions, List.head?_cons, Option.toList_some, List.tail_cons,
        List.singleton_append]
  · exact fun r hr => (genTail_bounds w h hw hh r hr).2
  · exact ⟨_, rfl, rfl, rfl⟩

/-- Claim C1 counterexample: at the positive source `1921×1080` the
first tier is the source itself, whose width `1921` is odd, so "every
tier has even width and even height" fails as stated. -/
theorem autoLadder_evenness_fails_on_odd_source :
    (0 : ℤ) < 1921 ∧ (0 : ℤ) < 1080 ∧
    ¬ (∀ r ∈ GenerateAutoResolutions 1921 1080,
        Even r.Width ∧ Even r.Height ∧ max r.Width r.Height ≤ max 1921 1080) := by
  refine ⟨by norm_num, by norm_num, fun hall => ?_⟩
  have hmem : (⟨1921, 1080, "9000k", "9630k", "13500k", "192k"⟩ : VideoResolution) ∈
      GenerateAutoResolutions 1921 1080 := by decide
  have heven := (hall _ hmem).1
  rw [Int.even_iff] at heven
  exact absurd heven (by decide)

/-- Witness for C1's amended theorem at the source `960×360`, whose full
ladder is also computed explicitly. -/
theorem autoLadder_no_upscale_witness :
    ((GenerateAutoResolutions 960 360).map fun r => (r.Width, r.Height)) =
      [(960, 360), (720, 274), (480, 182), (360, 136), (240, 90)] ∧
    (∀ r ∈ GenerateAutoResolutions 960 360, max r.Width r.Height ≤ max 960 360) ∧
    (∀ r ∈ (GenerateAutoResolutions 960 360).tail, Even r.Width ∧ Even r.Height) ∧
    (∃ r, (GenerateAutoResolutions 960 360).head? = some r ∧ r.Width = 960 ∧ r.Height = 360) := by
  have hmain := autoLadder_no_upscale_and_even_derived_tiers 960 360 (by norm_num) (by norm_num)
  exact ⟨by decide, hmain.1, hmain.2.1, hmain.2.2⟩

/-! ## Claim C2 -/

/-- Claim C2 (amended): for every source whose larger dimension is at
least 240, the first generated tier is the source resolution with the
bitrate preset named by the largest threshold (among
2160/1440/1080/720/480/360/240) that is at most the larger dimension;
in particular 1920×1080 gets the 1440p preset (see the witness).  Below
240 no threshold qualifies and the code falls back to the 240p preset
(see the counterexample). -/
theorem autoLadder_head_uses_largest_threshold_preset (w h : ℤ) (hm : 240 ≤ max w h) :
    ∃ name, specLargestThresholdAtMost (max w h) = some name ∧
      (GenerateAutoResolutions w h).head? = some ⟨w, h,
        (DefaultBitrates name).Video, (DefaultBitrates name).MaxRate,
        (DefaultBitrates name).BufSize, (DefaultBitrates name).Audio⟩ := by
  refine ⟨originalQualityName (max w h), ?_, rfl⟩
  unfold specLargestThresholdAtMost namedTierThresholds originalQualityName
  by_cases h1 : (2160 : ℤ) ≤ max w h
  · simp [List.filter, h1, ge_iff_le]
  · by_cases h2 : (1440 : ℤ) ≤ max w h
    · simp [List.filter, h1, h2, ge_iff_le]
    · by_cases h3 : (1080 : ℤ) ≤ max w h
      · simp [List.filter, h1, h2, h3, ge_iff_le]
      · by_cases h4 : (720 : ℤ) ≤ max w h
        · simp [List.filter, h1, h2, h3, h4, ge_iff_le]
        · by_cases h5 : (480 : ℤ) ≤ max w h
          · simp [List.filter, h1, h2, h3, h4, h5, ge_iff_le]
          · by_cases h6 : (360 : ℤ) ≤ max w h
            · simp [List.filter, h1, h2, h3, h4, h5, h6, ge_iff_le]
            · simp [List.filter, h1, h2, h3, h4, h5, h6, hm, ge_iff_le]

/-- Claim C2 counterexample: for the source `100×100` (larger dimension
100) no threshold in the named list is ≤ 100, so "the preset named by
the largest threshold at most max(w,h)" denotes nothing — yet the code
emits the 240p preset (`"400k"` video) via its `default` branch. -/
theorem autoLadder_preset_below_240_without_threshold :
    specLargestThresholdAtMost (max (100 : ℤ) 100) = none ∧
    (GenerateAutoResolutions 100 100).head? =
      some ⟨100, 100, "400k", "428k", "600k", "48k"⟩ :=
  ⟨by decide, by decide⟩

/-- Witness for C2's amended theorem at the source `1920×1080`: the
selected tier is the 1440p one and the first tier's video bitrate is
`"9000k"`, not the 1080p preset's `"5000k"`. -/
theorem autoLadder_head_threshold_witness :
    (240 : ℤ) ≤ max 1920 1080 ∧
    (∃ name, specLargestThresholdAtMost (max (1920 : ℤ) 1080) = some name ∧
      (GenerateAutoResolutions 1920 1080).head? = some ⟨1920, 1080,
        (DefaultBitrates name).Video, (DefaultBitrates name).MaxRate,
        (DefaultBitrates name).BufSize, (DefaultBitrates name).Audio⟩) ∧
    ((GenerateAutoResolutions 1920 1080).head?.map fun r => r.VideoBitrate) = some "9000k" :=
  ⟨by norm_num, autoLadder_head_uses_largest_threshold_preset 1920 1080 (by norm_num), by decide⟩

/-! ## Claim C9 -/

/-- Claim C9: the generator's own floor (`width ≥ 160 ∧ height ≥ 90`)
is weaker than the dispatcher's (`width ≥ 128 ∧ height ≥ 96`): the
960×360 source yields a 240×90 tier, which `createHLSStreams` then
rejects with the resolution-too-low code 1803 before invoking the
encoder — an auto-generated ladder need not pass dispatch validation. -/
theorem autoLadder_960x360_fails_dispatch_floor :
    ((GenerateAutoResolutions 960 360).map fun r => (r.Width, r.Height)) =
      [(960, 360), (720, 274), (480, 182), (360, 136), (240, 90)] ∧
    (∃ r ∈ GenerateAutoResolutions 960 360, r.Height < 96) ∧
    validateResolutions (GenerateAutoResolutions 960 360) =
      some (Errors.New Errors.UnsupportedResolutionError
        (Errors.GetErrorMessage Errors.ErrResolutionTooLow)
        "Resolução muito baixa: 240x90" Errors.ErrResolutionTooLow) ∧
    createHLSStreams (GenerateAutoResolutions 960 360) "output/hls"
        ⟨none, OpenResult.success, Except.ok "output/hls/master.m3u8", true⟩ =
      (Except.error (Errors.New Errors.UnsupportedResolutionError
        (Errors.GetErrorMessage Errors.ErrResolutionTooLow)
        "Resolução muito baixa: 240x90" Errors.ErrResolutionTooLow), false) :=
  ⟨by decide, by decide, by decide, by decide⟩

/-! ## Claim C3 -/

/-- `sendUpdateInternal` only touches `lastUpdate`; every other field of
the reporter is preserved. -/
theorem sendUpdateInternal_preserves (r : DefaultReporter) (force : Bool) (now : ℤ) :
    (r.sendUpdateInternal force now).1.Event = r.Event ∧
    (r.sendUpdateInternal force now).1.Current = r.Current ∧
    (r.sendUpdateInternal force now).1.Total = r.Total ∧
    (r.sendUpdateInternal force now).1.barActive = r.barActive ∧
    (r.sendUpdateInternal force now).1.closed = r.closed := by
  unfold DefaultReporter.sendUpdateInternal
  split <;> simp

/-- Case analysis of the percentage expression `Update` stores. -/
theorem updatePercentage_facts (T c : ℤ) :
    ((0 < T → (if T > 0 then ((min c T : ℤ) : ℚ) / (T : ℚ) * 100 else 0) =
        ((min c T : ℤ) : ℚ) / (T : ℚ) * 100)) ∧
    (T ≤ 0 → (if T > 0 then ((min c T : ℤ) : ℚ) / (T : ℚ) * 100 else 0) = 0) ∧
    (0 < T → 0 ≤ c →
      0 ≤ (if T > 0 then ((min c T : ℤ) : ℚ) / (T : ℚ) * 100 else 0) ∧
      (if T > 0 then ((min c T : ℤ) : ℚ) / (T : ℚ) * 100 else 0) ≤ 100) ∧
    (0 < T → c < 0 → (if T > 0 then ((min c T : ℤ) : ℚ) / (T : ℚ) * 100 else 0) < 0) := by
  refine ⟨fun hT => by rw [if_pos hT], fun hT => by rw [if_neg (by omega)], ?_, ?_⟩
  · intro hT hc
    rw [if_pos hT]
    have hTq : (0 : ℚ) < (T : ℚ) := by exact_mod_cast hT
    constructor
    · have hnum : (0 : ℚ) ≤ ((min c T : ℤ) : ℚ) := by
        have h2 : (0 : ℤ) ≤ min c T := by omega
        exact_mod_cast h2
      positivity
    · have hle : ((min c T : ℤ) : ℚ) / (T : ℚ) ≤ 1 := by
        rw [div_le_one hTq]
        exact_mod_cast min_le_right c T
      nlinarith
  · intro hT hc
    rw [if_pos hT]
    have hTq : (0 : ℚ) < (T : ℚ) := by exact_mod_cast hT
    have hnum : ((min c T : ℤ) : ℚ) < 0 := by
      have h2 : min c T < 0 := by omega
      exact_mod_cast h2
    have hdiv : ((min c T : ℤ) : ℚ) / (T : ℚ) < 0 := div_neg_of_neg_of_pos hnum hTq
    nlinarith

/-- Claim C3 (amended): on a started reporter, `Update` caps `current`
at `Total` from above only; the stored percentage is
`min(current,total)/total*100` when `total > 0` and `0` when
`total ≤ 0` (no division by zero), and status becomes `"processing"`.
A nonnegative `current` keeps the percentage in `[0,100]`, but a
negative `current` is NOT clamped up to 0: it yields a negative
percentage (the original claim's lower clamp does not exist in the
code). -/
theorem update_caps_above_only (r : DefaultReporter) (hbar : r.barActive = true)
    (current : ℤ) (step stage : String) (now : ℤ) :
    ((r.Update current step stage now).1.Event.Status = "processing") ∧
    ((r.Update current step stage now).1.Current = min current r.Total) ∧
    (0 < r.Total →
      (r.Update current step stage now).1.Event.Percentage =
        ((min current r.Total : ℤ) : ℚ) / (r.Total : ℚ) * 100) ∧
    (r.Total ≤ 0 → (r.Update current step stage now).1.Event.Percentage = 0) ∧
    (0 < r.Total → 0 ≤ current →
      0 ≤ (r.Update current step stage now).1.Event.Percentage ∧
      (r.Update current step stage now).1.Event.Percentage ≤ 100) ∧
    (0 < r.Total → current < 0 →
      (r.Update current step stage now).1.Event.Percentage < 0) := by
  have hcap : (if current > r.Total then r.Total else current) = min current r.Total := by
    split <;> omega
  have hfacts := updatePercentage_facts r.Total current
  unfold DefaultReporter.Update DefaultReporter.sendUpdateInternal
  rw [if_neg (show ¬ r.barActive = false by simp [hbar])]
  rw [hcap]
  dsimp only
  rcases lt_or_ge (now - r.lastUpdate) r.throttle with hthr | hthr
  · rw [if_pos (⟨rfl, hthr⟩ : false = false ∧ now - r.lastUpdate < r.throttle)]
    exact ⟨rfl, rfl, hfacts.1, hfacts.2.1, hfacts.2.2.1, hfacts.2.2.2⟩
  · rw [if_neg (show ¬ (false = false ∧ now - r.lastUpdate < r.throttle) from
      fun hc => absurd hc.2 (not_lt.mpr hthr))]
    exact ⟨rfl, rfl, hfacts.1, hfacts.2.1, hfacts.2.2.1, hfacts.2.2.2⟩

/-- Claim C3 counterexample: after `Start 100`, `Update (-50)` stores
percentage −50, whereas the claimed formula
`clamp(current,0,total)/total*100` gives 0 — negative `current` is not
clamped. -/
theorem update_negative_current_not_clamped :
    ((((NewReporter 0 0).Start 100 0).1.Update (-50) "transcoding" "x" 1).1.Event.Percentage
      = -50) ∧
    (((max 0 (min (-50 : ℤ) 100) : ℤ) : ℚ) / ((100 : ℤ) : ℚ) * 100 = 0) ∧
    ((-50 : ℚ) ≠ 0) := by
  refine ⟨?_, by norm_num, by norm_num⟩
  norm_num [NewReporter, DefaultReporter.Start, DefaultReporter.Update,
    DefaultReporter.sendUpdateInternal]

/-- Witness for C3's amended theorem on a freshly started reporter with
total 10 and `current = 5`. -/
theorem update_caps_above_only_witness :
    (((NewReporter 0 0).Start 10 0).1.barActive = true) ∧
    (((((NewReporter 0 0).Start 10 0).1.Update 5 "s" "t" 1).1.Event.Status = "processing") ∧
     ((((NewReporter 0 0).Start 10 0).1.Update 5 "s" "t" 1).1.Current =
        min 5 ((NewReporter 0 0).Start 10 0).1.Total) ∧
     (0 < ((NewReporter 0 0).Start 10 0).1.Total →
       ((((NewReporter 0 0).Start 10 0).1.Update 5 "s" "t" 1).1.Event.Percentage =
         ((min 5 ((NewReporter 0 0).Start 10 0).1.Total : ℤ) : ℚ) /
           (((NewReporter 0 0).Start 10 0).1.Total : ℚ) * 100)) ∧
     (((NewReporter 0 0).Start 10 0).1.Total ≤ 0 →
       (((NewReporter 0 0).Start 10 0).1.Update 5 "s" "t" 1).1.Event.Percentage = 0) ∧
     (0 < ((NewReporter 0 0).Start 10 0).1.Total → 0 ≤ (5 : ℤ) →
       0 ≤ (((NewReporter 0 0).Start 10 0).1.Update 5 "s" "t" 1).1.Event.Percentage ∧
       (((NewReporter 0 0).Start 10 0).1.Update 5 "s" "t" 1).1.Event.Percentage ≤ 100) ∧
     (0 < ((NewReporter 0 0).Start 10 0).1.Total → (5 : ℤ) < 0 →
       (((NewReporter 0 0).Start 10 0).1.Update 5 "s" "t" 1).1.Event.Percentage < 0)) :=
  ⟨by decide, update_caps_above_only _ (by decide) 5 "s" "t" 1⟩

/-! ## Claim C4 -/

/-- Claim C4 (amended): on a started reporter (`Bar` present),
`Complete` sets `Current = Total`, percentage 100, status
`"completed"`, emits the final event unconditionally (no hypothesis on
the throttle window is needed), closes the updates channel, and every
subsequent `Update`/`Increment`/`Complete` is a no-op emitting nothing.
On a reporter that was never started, `Complete` is a no-op (see the
counterexample), which is the one restriction the original claim's "for
every prior state" misses. -/
theorem complete_finalizes_started_reporter (r : DefaultReporter)
    (hbar : r.barActive = true) (now : ℤ) :
    ((r.Complete now).1.Current = (r.Complete now).1.Total) ∧
    ((r.Complete now).1.Total = r.Total) ∧
    ((r.Complete now).1.Event.Percentage = 100) ∧
    ((r.Complete now).1.Event.Status = "completed") ∧
    ((r.Complete now).2 = some (r.Complete now).1.Event) ∧
    ((r.Complete now).1.closed = true) ∧
    ((r.Complete now).1.barActive = false) ∧
    (∀ c s t n, (r.Complete now).1.Update c s t n = ((r.Complete now).1, none)) ∧
    (∀ s t n, (r.Complete now).1.Increment s t n = ((r.Complete now).1, none)) ∧
    (∀ n, (r.Complete now).1.Complete n = ((r.Complete now).1, none)) := by
  have hdone : r.Complete now =
      ({ r with
          Current := r.Total,
          lastUpdate := now,
          barActive := false,
          closed := true,
          Event := { r.Event with Percentage := 100, Status := "completed", Timestamp := now } },
       some { r.Event with Percentage := 100, Status := "completed", Timestamp := now }) := by
    unfold DefaultReporter.Complete DefaultReporter.sendUpdateInternal
    rw [hbar]
    simp
  rw [hdone]
  refine ⟨rfl, rfl, rfl, rfl, rfl, rfl, rfl, ?_, ?_, ?_⟩
  · intro c s t n
    unfold DefaultReporter.Update
    simp
  · intro s t n
    unfold DefaultReporter.Increment DefaultReporter.Update
    simp
  · intro n
    unfold DefaultReporter.Complete
    simp

/-- Claim C4 counterexample: on a reporter that was never started
(`Bar = nil`), `Complete` is a no-op: status stays `"initialized"`, the
percentage stays 0 (not 100), nothing is emitted and the channel is not
closed — so the claim's "for every prior reporter state" fails. -/
theorem complete_noop_on_unstarted_reporter :
    (((NewReporter 0 0).Complete 5).1.Event.Status = "initialized") ∧
    (((NewReporter 0 0).Complete 5).1.closed = false) ∧
    (((NewReporter 0 0).Complete 5).2 = none) ∧
    ¬ (((NewReporter 0 0).Complete 5).1.Event.Percentage = 100) := by
  refine ⟨rfl, rfl, rfl, ?_⟩
  norm_num [NewReporter, DefaultReporter.Complete]

/-- Witness for C4's amended theorem: a reporter started with throttle
1000 at time 0 is completed at time 1 — inside the throttle window, so
the emission shown really does bypass the throttle. -/
theorem complete_finalizes_witness :
    (((NewReporter 1000 0).Start 7 0).1.barActive = true) ∧
    ((1 : ℤ) - ((NewReporter 1000 0).Start 7 0).1.lastUpdate <
      ((NewReporter 1000 0).Start 7 0).1.throttle) ∧
    (((((NewReporter 1000 0).Start 7 0).1.Complete 1).1.Current =
        (((NewReporter 1000 0).Start 7 0).1.Complete 1).1.Total) ∧
     ((((NewReporter 1000 0).Start 7 0).1.Complete 1).1.Total =
        ((NewReporter 1000 0).Start 7 0).1.Total) ∧
     ((((NewReporter 1000 0).Start 7 0).1.Complete 1).1.Event.Percentage = 100) ∧
     ((((NewReporter 1000 0).Start 7 0).1.Complete 1).1.Event.Status = "completed") ∧
     ((((NewReporter 1000 0).Start 7 0).1.Complete 1).2 =
        some (((NewReporter 1000 0).Start 7 0).1.Complete 1).1.Event) ∧
     ((((NewReporter 1000 0).Start 7 0).1.Complete 1).1.closed = true) ∧
     ((((NewReporter 1000 0).Start 7 0).1.Complete 1).1.barActive = false) ∧
     (∀ c s t n, (((NewReporter 1000 0).Start 7 0).1.Complete 1).1.Update c s t n =
        ((((NewReporter 1000 0).Start 7 0).1.Complete 1).1, none)) ∧
     (∀ s t n, (((NewReporter 1000 0).Start 7 0).1.Complete 1).1.Increment s t n =
        ((((NewReporter 1000 0).Start 7 0).1.Complete 1).1, none)) ∧
     (∀ n, (((NewReporter 1000 0).Start 7 0).1.Complete 1).1.Complete n =
        ((((NewReporter 1000 0).Start 7 0).1.Complete 1).1, none))) :=
  ⟨by decide, by decide, complete_finalizes_started_reporter _ (by decide) 1⟩

/-! ## Claim C5 -/

/-- Claim C5: for a local input path, a missing path yields a
`FileNotFoundError` with code 1200; an existing path that is a
directory yields an `InvalidFileFormatError` with code 1300; an
existing regular, readable, non-empty file whose lower-cased extension
is outside the supported container set yields an
`InvalidFileFormatError` with code 1301 — so the directory case and the
unsupported-extension case are distinguishable by code. -/
theorem handleInput_local_error_codes (inputPath : String) (info : LocalInputInfo) :
    (info.statExists = false →
      ∃ e, handleInputLocal inputPath info = .error e ∧
        e.errType = Errors.FileNotFoundError ∧ e.Code = 1200) ∧
    (info.statExists = true → info.isDir = true →
      ∃ e, handleInputLocal inputPath info = .error e ∧
        e.errType = Errors.InvalidFileFormatError ∧ e.Code = 1300) ∧
    (info.statExists = true → info.isDir = false → info.openResult = .success →
      info.size ≠ 0 →
      supportedFormats.contains (stringToLower (filepathExt inputPath)) = false →
      ∃ e, handleInputLocal inputPath info = .error e ∧
        e.errType = Errors.InvalidFileFormatError ∧ e.Code = 1301) ∧
    (Errors.ErrInvalidFileFormat ≠ Errors.ErrUnsupportedFileFormat) := by
  refine ⟨?_, ?_, ?_, by decide⟩
  · intro hex
    unfold handleInputLocal
    rw [if_pos hex]
    exact ⟨_, rfl, rfl, rfl⟩
  · intro hex hdir
    unfold handleInputLocal
    rw [if_neg (by simp [hex]), if_pos hdir]
    exact ⟨_, rfl, rfl, rfl⟩
  · intro hex hdir hopen hsize hext
    unfold handleInputLocal
    rw [if_neg (by simp [hex]), if_neg (by simp [hdir]), hopen]
    dsimp only
    rw [if_neg hsize, if_pos hext]
    exact ⟨_, rfl, rfl, rfl⟩

/-- Witness for C5 in all three scenarios: a missing file, a directory,
and an unsupported `.xyz` extension. -/
theorem handleInput_local_error_codes_witness :
    (∃ e, handleInputLocal "video.mp4" ⟨false, false, .success, 5⟩ = .error e ∧
      e.errType = Errors.FileNotFoundError ∧ e.Code = 1200) ∧
    (∃ e, handleInputLocal "media" ⟨true, true, .success, 0⟩ = .error e ∧
      e.errType = Errors.InvalidFileFormatError ∧ e.Code = 1300) ∧
    (∃ e, handleInputLocal "video.xyz" ⟨true, false, .success, 5⟩ = .error e ∧
      e.errType = Errors.InvalidFileFormatError ∧ e.Code = 1301) :=
  ⟨(handleInput_local_error_codes "video.mp4" ⟨false, false, .success, 5⟩).1 rfl,
   (handleInput_local_error_codes "media" ⟨true, true, .success, 0⟩).2.1 rfl rfl,
   (handleInput_local_error_codes "video.xyz" ⟨true, false, .success, 5⟩).2.2.1
     rfl rfl rfl (by decide) (by decide)⟩

/-! ## Claim C6 -/

/-- Claim C6: tier validation in `createHLSStreams` distinguishes, in
check order, non-positive dimensions (code 1801), dimensions above the
8K ceiling 7680×4320 (code 1802) and dimensions below the 128×96 floor
(code 1803); when any tier of the ladder fails validation the run
returns that tier's error and the encoder is never invoked. -/
theorem createHLSStreams_tier_validation (r : VideoResolution)
    (resolutions : List VideoResolution) (outputPath : String) (env : HLSRunEnv) :
    (r.Width ≤ 0 ∨ r.Height ≤ 0 →
      ∃ e, validateResolution r = some e ∧
        e.errType = Errors.UnsupportedResolutionError ∧ e.Code = 1801) ∧
    (0 < r.Width → 0 < r.Height → (7680 < r.Width ∨ 4320 < r.Height) →
      ∃ e, validateResolution r = some e ∧
        e.errType = Errors.UnsupportedResolutionError ∧ e.Code = 1802) ∧
    (0 < r.Width → 0 < r.Height → r.Width ≤ 7680 → r.Height ≤ 4320 →
      (r.Width < 128 ∨ r.Height < 96) →
      ∃ e, validateResolution r = some e ∧
        e.errType = Errors.UnsupportedResolutionError ∧ e.Code = 1803) ∧
    (∀ e, validateResolutions resolutions = some e →
      env.mkdirFailure = none → env.writeTest = .success →
      createHLSStreams resolutions outputPath env = (.error e, false)) := by
  refine ⟨?_, ?_, ?_, ?_⟩
  · intro hbad
    unfold validateResolution
    rw [if_pos hbad]
    exact ⟨_, rfl, rfl, rfl⟩
  · intro hw hh hhigh
    unfold validateResolution
    rw [if_neg (by omega), if_pos hhigh]
    exact ⟨_, rfl, rfl, rfl⟩
  · intro hw hh hw2 hh2 hlow
    unfold validateResolution
    rw [if_neg (by omega), if_neg (by omega), if_pos hlow]
    exact ⟨_, rfl, rfl, rfl⟩
  · intro e hval hmk hwt
    unfold createHLSStreams
    rw [hmk, hwt, hval]

/-- Witness for C6: an invalid tier, an 8000-wide tier, a 240×90 tier,
and a run over a ladder whose second tier is below the floor. -/
theorem createHLSStreams_tier_validation_witness :
    (∃ e, validateResolution ⟨0, 1080, "800k", "856k", "1200k", "64k"⟩ = some e ∧
      e.errType = Errors.UnsupportedResolutionError ∧ e.Code = 1801) ∧
    (∃ e, validateResolution ⟨8000, 4000, "800k", "856k", "1200k", "64k"⟩ = some e ∧
      e.errType = Errors.UnsupportedResolutionError ∧ e.Code = 1802) ∧
    (∃ e, validateResolution ⟨240, 90, "800k", "856k", "1200k", "64k"⟩ = some e ∧
      e.errType = Errors.UnsupportedResolutionError ∧ e.Code = 1803) ∧
    (∀ e, validateResolutions
        [⟨640, 360, "800k", "856k", "1200k", "64k"⟩,
         ⟨240, 90, "800k", "856k", "1200k", "64k"⟩] = some e →
      (⟨none, .success, .ok "m", true⟩ : HLSRunEnv).mkdirFailure = none →
      (⟨none, .success, .ok "m", true⟩ : HLSRunEnv).writeTest = .success →
      createHLSStreams
        [⟨640, 360, "800k", "856k", "1200k", "64k"⟩,
         ⟨240, 90, "800k", "856k", "1200k", "64k"⟩] "out"
        ⟨none, .success, .ok "m", true⟩ = (.error e, false)) :=
  ⟨(createHLSStreams_tier_validation ⟨0, 1080, "800k", "856k", "1200k", "64k"⟩ [] "out"
      ⟨none, .success, .ok "m", true⟩).1 (by decide),
   (createHLSStreams_tier_validation ⟨8000, 4000, "800k", "856k", "1200k", "64k"⟩ [] "out"
      ⟨none, .success, .ok "m", true⟩).2.1 (by decide) (by decide) (by decide),
   (createHLSStreams_tier_validation ⟨240, 90, "800k", "856k", "1200k", "64k"⟩ [] "out"
      ⟨none, .success, .ok "m", true⟩).2.2.1
      (by decide) (by decide) (by decide) (by decide) (by decide),
   (createHLSStreams_tier_validation ⟨240, 90, "800k", "856k", "1200k", "64k"⟩
      [⟨640, 360, "800k", "856k", "1200k", "64k"⟩,
       ⟨240, 90, "800k", "856k", "1200k", "64k"⟩] "out"
      ⟨none, .success, .ok "m", true⟩).2.2.2⟩

/-! ## Claim C7 -/

/-- Claim C7: when the destination exists and `AllowOverride` is false,
`Download` returns the destination path with no error, issues no HTTP
request, and leaves the destination file unchanged.  (The `MkdirAll` on
the destination's parent directory, which runs first, succeeds whenever
the destination file exists, since its parent directory then exists;
this is the `mkdirError = none` hypothesis.) -/
theorem download_skips_existing_destination (opts : DownloaderOptions) (env : DownloadEnv)
    (hmkdir : env.mkdirError = none) (hexists : env.destExists = true)
    (hno : opts.AllowOverride = false) :
    Download opts env = ⟨.ok opts.OutputPath, false, false, .unchanged⟩ := by
  unfold Download
  rw [hmkdir]
  rw [if_pos (by simp [hexists, hno])]

/-- Witness for C7 at a concrete downloader configuration. -/
theorem download_skips_existing_destination_witness :
    Download ⟨"http://example.com/video.mp4", "downloads/video.mp4", false⟩
      ⟨none, true, none, .error "server unreachable", none, none, ""⟩ =
      ⟨.ok "downloads/video.mp4", false, false, .unchanged⟩ :=
  download_skips_existing_destination
    ⟨"http://example.com/video.mp4", "downloads/video.mp4", false⟩
    ⟨none, true, none, .error "server unreachable", none, none, ""⟩ rfl rfl rfl

/-! ## Claim C8 -/

/-- Claim C8 (amended): `Download` checks `resp.StatusCode !=
http.StatusOK`, i.e. it demands status exactly 200, not any 2xx
success: any other status (including 204 or 206) yields a
`DownloadError` whose `Details` carries the HTTP status text, and the
destination file is created exactly when the status is 200. -/
theorem download_requires_status_exactly_200 (opts : DownloaderOptions)
    (env : DownloadEnv) (resp : HttpResponse)
    (hmkdir : env.mkdirError = none)
    (hskip : ¬ (env.destExists ∧ opts.AllowOverride = false))
    (hreq : env.newRequestError = none)
    (hdo : env.doResult = .ok resp) :
    (resp.StatusCode ≠ 200 →
      Download opts env = ⟨.error (Errors.New Errors.DownloadError "HTTP request failed"
        ("Status: " ++ resp.Status) 4), true, false, .unchanged⟩) ∧
    ((Download opts env).createAttempted = true ↔ resp.StatusCode = 200) := by
  unfold Download
  rw [hmkdir, if_neg hskip, hreq, hdo]
  dsimp only
  constructor
  · intro hne
    rw [if_pos hne]
  · by_cases hs : resp.StatusCode = 200
    · rw [if_neg (by simp [hs])]
      cases env.createError <;> cases env.copyError <;> simp [hs]
    · rw [if_pos hs]
      simp [hs]

/-- Claim C8 counterexample: a `204 No Content` response is a 2xx
success, yet `Download` rejects it with the `DownloadError` (code 4)
and never creates the destination file — the check is `!= 200`, not
"not 2xx". -/
theorem download_rejects_204_success :
    (200 : ℤ) ≤ 204 ∧ (204 : ℤ) < 300 ∧
    Download ⟨"http://example.com/video.mp4", "downloads/video.mp4", true⟩
      ⟨none, false, none, .ok ⟨204, "204 No Content", "BODY"⟩, none, none, ""⟩ =
      ⟨.error (Errors.New Errors.DownloadError "HTTP request failed"
        "Status: 204 No Content" 4), true, false, .unchanged⟩ :=
  ⟨by norm_num, by norm_num, by decide⟩

/-- Witness for C8's amended theorem at a 404 response. -/
theorem download_requires_status_exactly_200_witness :
    (Download ⟨"http://example.com/video.mp4", "downloads/video.mp4", true⟩
      ⟨none, false, none, .ok ⟨404, "404 Not Found", ""⟩, none, none, ""⟩ =
      ⟨.error (Errors.New Errors.DownloadError "HTTP request failed"
        "Status: 404 Not Found" 4), true, false, .unchanged⟩) ∧
    ((Download ⟨"http://example.com/video.mp4", "downloads/video.mp4", true⟩
      ⟨none, false, none, .ok ⟨404, "404 Not Found", ""⟩, none, none, ""⟩).createAttempted
        = true ↔ (404 : ℤ) = 200) :=
  have hmain := download_requires_status_exactly_200
    ⟨"http://example.com/video.mp4", "downloads/video.mp4", true⟩
    ⟨none, false, none, .ok ⟨404, "404 Not Found", ""⟩, none, none, ""⟩
    ⟨404, "404 Not Found", ""⟩ rfl (by simp) rfl rfl
  ⟨hmain.1 (by norm_num), hmain.2⟩

/-! ## Claim C10 -/

/-- Claim C10: `os.Create` on the destination runs only after the
status check passes, so on a non-200 response the error returns with
the destination untouched; by contrast an `io.Copy` failure after a 200
response returns an error while leaving the partially written
destination file in place. -/
theorem download_creates_file_only_after_status_check (opts : DownloaderOptions)
    (env : DownloadEnv) (resp : HttpResponse)
    (hmkdir : env.mkdirError = none)
    (hskip : ¬ (env.destExists ∧ opts.AllowOverride = false))
    (hreq : env.newRequestError = none)
    (hdo : env.doResult = .ok resp) :
    (resp.StatusCode ≠ 200 →
      (Download opts env).dest = .unchanged ∧
      ∃ e, (Download opts env).result = .error e) ∧
    (resp.StatusCode = 200 → env.createError = none →
      ∀ msg, env.copyError = some msg →
        (Download opts env).dest = .truncatedWrite env.copied ∧
        (Download opts env).result = .error
          (Errors.Wrap (some msg) Errors.DownloadError "Failed to write file" 6)) := by
  unfold Download
  rw [hmkdir, if_neg hskip, hreq, hdo]
  dsimp only
  constructor
  · intro hne
    rw [if_pos hne]
    exact ⟨rfl, _, rfl⟩
  · intro hs hcreate msg hcopy
    rw [if_neg (by simp [hs]), hcreate, hcopy]
    dsimp only
    exact ⟨rfl, rfl⟩

/-- Witness for C10: a 500 response leaves the destination unchanged; a
200 response with a failing body copy leaves a truncated file. -/
theorem download_creates_file_only_after_status_check_witness :
    ((Download ⟨"http://example.com/video.mp4", "downloads/video.mp4", true⟩
        ⟨none, false, none, .ok ⟨500, "500 Internal Server Error", ""⟩, none, none, ""⟩).dest
        = .unchanged ∧
     ∃ e, (Download ⟨"http://example.com/video.mp4", "downloads/video.mp4", true⟩
        ⟨none, false, none, .ok ⟨500, "500 Internal Server Error", ""⟩, none, none, ""⟩).result
        = .error e) ∧
    ((Download ⟨"http://example.com/video.mp4", "downloads/video.mp4", true⟩
        ⟨none, false, none, .ok ⟨200, "200 OK", "FULLBODY"⟩, none, some "connection reset", "FULL"⟩).dest
        = .truncatedWrite "FULL" ∧
     (Download ⟨"http://example.com/video.mp4", "downloads/video.mp4", true⟩
        ⟨none, false, none, .ok ⟨200, "200 OK", "FULLBODY"⟩, none, some "connection reset", "FULL"⟩).result
        = .error (Errors.Wrap (some "connection reset") Errors.DownloadError
            "Failed to write file" 6)) :=
  ⟨(download_creates_file_only_after_status_check
      ⟨"http://example.com/video.mp4", "downloads/video.mp4", true⟩
      ⟨none, false, none, .ok ⟨500, "500 Internal Server Error", ""⟩, none, none, ""⟩
      ⟨500, "500 Internal Server Error", ""⟩ rfl (by simp) rfl rfl).1 (by norm_num),
   (download_creates_file_only_after_status_check
      ⟨"http://example.com/video.mp4", "downloads/video.mp4", true⟩
      ⟨none, false, none, .ok ⟨200, "200 OK", "FULLBODY"⟩, none, some "connection reset", "FULL"⟩
      ⟨200, "200 OK", "FULLBODY"⟩ rfl (by simp) rfl rfl).2 rfl rfl
      "connection reset" rfl⟩

end HLSpresso
